import Mathlib

/-!
Verification development for the MindfulReframe reframing dialogue
controller.  The definitions below are a shallow embedding of the
TypeScript source:

* shared/rules.js — the RULES configuration constants;
* shared/rule-helpers.ts — isCrisisText, shouldBlockPromptInjection,
  sanitizeUserInput, validateJournalEntry, isAllowedAIUseCase;
* server/storage.ts — MemStorage.createReframingSession and
  updateReframingSession (object-spread merge);
* server/routes.ts — the POST /api/reframing/start,
  POST /api/reframing/:sessionId/chat and GET /api/reframing/:sessionId
  handlers;
* server/openai-service.ts chatReframe — the crisis, injection,
  parse-validation and adapter-fallback paths.  The deployed chatReframe
  also takes turnCount and maxTurns and returns showPacingOptions and
  reachedTurnLimit; that extension is absent from the source tree and is
  modelled from the spec where indicated.

JavaScript strings are modelled as Lean strings (character lists); the
regular expression <[^>]*> used for tag stripping and tag detection is
modelled by equivalent recursive scans.  Timestamps are abstract natural
numbers supplied by the caller.
-/

/-- RULES.AI.CRISIS_DETECTION.enabled from shared/rules.js. -/
def crisisDetectionEnabled : Bool := true

/-- RULES.AI.CRISIS_DETECTION.triggerPhrases from shared/rules.js. -/
def crisisTriggerPhrases : List String :=
  ["want to die", "kill myself", "end my life", "not worth living",
   "suicide", "hurt myself"]

/-- RULES.AI.CRISIS_DETECTION.responseTemplate from shared/rules.js. -/
def crisisResponseTemplate : String :=
  "I\x27m really sorry you\x27re feeling this way. You are not alone. Please reach out to a professional or visit https://findahelpline.com to find a support service in your region."

/-- RULES.AI.SECURITY.blockJailbreakAttempts from shared/rules.js. -/
def blockJailbreakAttempts : Bool := true

/-- RULES.AI.SECURITY.jailbreakPhrases from shared/rules.js. -/
def jailbreakPhrases : List String :=
  ["ignore previous instructions", "pretend to be a therapist",
   "act as a doctor", "forget your guidelines", "you are now a",
   "system prompt:"]

/-- RULES.AI.SECURITY.sanitizeBeforeAI from shared/rules.js. -/
def sanitizeBeforeAI : Bool := true

/-- RULES.SECURITY.INPUT_VALIDATION.maxJournalEntryLength from shared/rules.js. -/
def maxJournalEntryLength : Nat := 5000

/-- RULES.SECURITY.INPUT_VALIDATION.blockHtmlTags from shared/rules.js. -/
def blockHtmlTags : Bool := true

/-- RULES.COST_CONTROLS.TOKEN_LIMITS.dailyTokenCapPerUser from shared/rules.js. -/
def dailyTokenCapPerUser : Nat := 20000

/-- RULES.AI.ALLOWED_OPERATIONS from shared/rules.js. -/
def allowedOperations : List String :=
  ["detectCognitiveDistortions", "summarizeJournalEntries",
   "guideReframingProcess", "generateVisualizationPrompts",
   "provideSupportiveReflection"]

/-- rule-helpers isAllowedAIUseCase: membership in RULES.AI.ALLOWED_OPERATIONS. -/
def isAllowedAIUseCase (taskName : String) : Bool :=
  allowedOperations.contains taskName

/-- JavaScript String.prototype.includes modelled on character lists:
the needle occurs as a contiguous run inside the haystack. -/
def strIncludes (needle : List Char) : List Char → Bool
  | [] => needle.isEmpty
  | c :: rest => needle.isPrefixOf (c :: rest) || strIncludes needle rest

/-- rule-helpers isCrisisText: when crisis detection is enabled, some
trigger phrase occurs in the lowercased input. -/
def isCrisisText (input : String) : Bool :=
  if crisisDetectionEnabled = false then false
  else
    crisisTriggerPhrases.any
      (fun phrase => strIncludes phrase.toList (input.toList.map Char.toLower))

/-- rule-helpers shouldBlockPromptInjection: when jailbreak blocking is
enabled, some jailbreak phrase occurs in the lowercased input. -/
def shouldBlockPromptInjection (input : String) : Bool :=
  if blockJailbreakAttempts = false then false
  else
    jailbreakPhrases.any
      (fun phrase => strIncludes phrase.toList (input.toList.map Char.toLower))

/-- Characters after the first closing angle bracket, if one exists.
Models the end of one match of the regular expression <[^>]*>. -/
def dropTag : List Char → Option (List Char)
  | [] => none
  | c :: rest => if c = '>' then some rest else dropTag rest

/-- Fuel-indexed scan for stripTags: each opening angle bracket that is
eventually closed is removed together with the characters up to and
including the next closing bracket.  Every recursive call shortens the
list, so fuel equal to the list length is always sufficient. -/
def stripTagsFuel : Nat → List Char → List Char
  | 0, l => l
  | _ + 1, [] => []
  | fuel + 1, c :: rest =>
    if c = '<' then
      match dropTag rest with
      | some tail => stripTagsFuel fuel tail
      | none => c :: rest
    else c :: stripTagsFuel fuel rest

/-- The global replace of the regular expression <[^>]*> by the empty
string, as performed by sanitizeUserInput in rule-helpers. -/
def stripTags (l : List Char) : List Char := stripTagsFuel l.length l

/-- JavaScript String.prototype.trim on character lists (leading and
trailing whitespace removed). -/
def trimList (l : List Char) : List Char :=
  ((l.dropWhile Char.isWhitespace).reverse.dropWhile Char.isWhitespace).reverse

/-- rule-helpers sanitizeUserInput: strip markup, clamp to the maximum
journal entry length, trim surrounding whitespace. -/
def sanitizeUserInput (input : String) : String :=
  if sanitizeBeforeAI = false then input
  else String.mk (trimList ((stripTags input.toList).take maxJournalEntryLength))

/-- True when the regular expression <[^>]*> matches somewhere in the
input, i.e. some opening angle bracket is followed by a closing one. -/
def hasHtmlTag : List Char → Bool
  | [] => false
  | c :: rest => if c = '<' then rest.contains '>' || hasHtmlTag rest else hasHtmlTag rest

/-- rule-helpers validateJournalEntry, reduced to its isValid field: the
entry is non-blank, within the length cap, and free of HTML tags. -/
def validateJournalEntry (entry : String) : Bool :=
  !(decide (trimList entry.toList = [])) &&
  decide (entry.length ≤ maxJournalEntryLength) &&
  !(blockHtmlTags && hasHtmlTag entry.toList)

/-- A chat turn as stored in a reframing session (ChatMessage in
server/openai-service.ts), with the timestamp abstracted to a natural
number. -/
structure ChatMessage where
  role : Bool
  content : String
  timestamp : Nat
deriving DecidableEq

/-- Role constant for user messages. -/
def roleUser : Bool := true

/-- Role constant for assistant messages. -/
def roleAssistant : Bool := false

/-- A row of the reframing_sessions table (shared/schema.ts), as realised
by MemStorage in server/storage.ts.  turnCount and maxTurns are Option
because MemStorage.createReframingSession never assigns them, and the
route reads them with the JavaScript defaults turnCount or 0 and
maxTurns or 12. -/
structure ReframingSession where
  id : Nat
  journalSessionId : Nat
  userId : Nat
  selectedThought : String
  distortionType : String
  reframingMethod : String
  chatHistory : List ChatMessage
  finalReframedThought : Option String
  isCompleted : Bool
  turnCount : Option Nat
  maxTurns : Option Nat
  createdAt : Nat
  completedAt : Option Nat
deriving DecidableEq

/-- JavaScript  x or-else d  on an optional number: undefined and 0 are
falsy, any other number is kept. -/
def jsOrNat : Option Nat → Nat → Nat
  | none, d => d
  | some 0, d => d
  | some n, _ => n

/-- The turn count the chat route observes: session.turnCount or 0. -/
def effTurnCount (s : ReframingSession) : Nat := jsOrNat s.turnCount 0

/-- The turn ceiling the chat route observes: session.maxTurns or 12. -/
def effMaxTurns (s : ReframingSession) : Nat := jsOrNat s.maxTurns 12

/-- JavaScript truthiness of an optional string: undefined, null and the
empty string are falsy. -/
def optTruthy : Option String → Bool
  | none => false
  | some s => !(s == "")

/-- Structured reply expected from the model adapter after JSON parsing
(message, isComplete, finalReframedThought, nextSuggestion). -/
structure ModelReply where
  message : String
  isComplete : Bool
  finalReframedThought : Option String
  nextSuggestion : Option String
deriving DecidableEq

/-- One model-adapter round trip: either the call threw or timed out or
returned unparseable JSON, or it produced a parsed reply. -/
inductive ModelOutcome where
  | failure : ModelOutcome
  | success : ModelReply → ModelOutcome
deriving DecidableEq

/-- ReframingChatResponse as consumed by the chat route: the fields of
the interface in server/openai-service.ts plus the pacing fields the
deployed service returns (showPacingOptions, reachedTurnLimit). -/
structure ReframingChatResponse where
  message : String
  isComplete : Bool
  finalReframedThought : Option String
  nextSuggestion : Option String
  showPacingOptions : Bool
  reachedTurnLimit : Bool
deriving DecidableEq

/-- Fallback text returned by chatReframe when the model call fails or
its output does not validate (server/openai-service.ts catch block). -/
def adapterFallbackMessage : String :=
  "I\x27m having trouble right now. Let\x27s take a step back - what first comes to mind when you think about this thought differently?"

/-- Re-prompt text returned by chatReframe when prompt injection is
detected (server/openai-service.ts). -/
def injectionRepromptMessage : String :=
  "I noticed something unusual in your message. Could you rephrase what you\x27re thinking about this thought?"

/-- Modelled from the spec: the synthesized non-empty reframed thought the
controller uses when it forces completion at the turn ceiling and the
last model response carries no reframed-thought text.  The concluding
text follows the wrap-up template in the design notes. -/
def forcedCompletionThought : String :=
  "You\x27ve put thoughtful energy into shifting this belief. Let\x27s take a moment to reflect, then decide if you\x27d like to go deeper or move forward."

/-- A crisis or injection short circuit: the fixed message with every
optional field absent, exactly the shape of the early returns in
chatReframe (so the pacing flags read as falsy undefined). -/
def shortCircuitResponse (msg : String) : ReframingChatResponse :=
  { message := msg, isComplete := false, finalReframedThought := none,
    nextSuggestion := none, showPacingOptions := false, reachedTurnLimit := false }

/-- The response produced on the adapter-failure path for the call that
would have been user turn n with ceiling limit: the fixed fallback text,
no completion, with the pacing fields computed for the counted turn.
The fallback body is the catch block of chatReframe; the pacing fields
are modelled from the spec (shown iff the turn count is a positive
multiple of three and the session is not completed). -/
def adapterFallbackResponse (n limit : Nat) : ReframingChatResponse :=
  { message := adapterFallbackMessage, isComplete := false,
    finalReframedThought := none, nextSuggestion := none,
    showPacingOptions := decide (n % 3 = 0) && decide (0 < n),
    reachedTurnLimit := decide (limit ≤ n) }

/-- Modelled from the spec: the turn-pacing core of the deployed
chatReframe, absent from the source tree.  n is the turn count after
counting this call (previous turnCount plus one) and limit is the user
turn ceiling (maxTurns divided by two, i.e. 6).  Completion fires when
the model signals isComplete with a truthy reframed thought, or is
forced at the ceiling with a non-empty fallback thought; the pacing menu
is flagged iff n is a positive multiple of three and the session is not
completed; reachedTurnLimit reports the ceiling.  An adapter failure or
a reply failing parse validation (empty message) degrades to the fixed
fallback and never completes the session. -/
def chatReframeCore (n limit : Nat) : ModelOutcome → ReframingChatResponse
  | .failure => adapterFallbackResponse n limit
  | .success r =>
    if r.message = "" then adapterFallbackResponse n limit
    else
      let atLimit : Bool := decide (limit ≤ n)
      let complete : Bool := (r.isComplete && optTruthy r.finalReframedThought) || atLimit
      { message := r.message,
        isComplete := complete,
        finalReframedThought :=
          if complete then
            (if optTruthy r.finalReframedThought then r.finalReframedThought
             else some forcedCompletionThought)
          else r.finalReframedThought,
        nextSuggestion := r.nextSuggestion,
        showPacingOptions := decide (n % 3 = 0) && decide (0 < n) && !complete,
        reachedTurnLimit := atLimit }

/-- Failures chatReframe raises before attempting the model call; the
route surfaces them as a 500 without touching the session. -/
inductive ChatServiceError where
  | operationNotAllowed : ChatServiceError
  | apiKeyMissing : ChatServiceError
  | dailyLimitReached : ChatServiceError
deriving DecidableEq

/-- chatReframe from server/openai-service.ts, extended with the
turn-tracking arguments the route passes (turnCount, maxTurns) whose
handling is modelled from the spec via chatReframeCore.  The guard
order, sanitization, crisis and injection short circuits mirror the
source: allowed-operation check, API-key check, daily token cap, then
the safety screens on the sanitized message, then the model call. -/
def chatReframe (userMessage : String) (turnCount maxTurns tokensUsedToday : Nat)
    (apiKeyConfigured : Bool) (outcome : ModelOutcome) :
    Except ChatServiceError ReframingChatResponse :=
  if isAllowedAIUseCase "guideReframingProcess" = true then
    if apiKeyConfigured = true then
      if tokensUsedToday < dailyTokenCapPerUser then
        let m := sanitizeUserInput userMessage
        if isCrisisText m = true then
          .ok (shortCircuitResponse crisisResponseTemplate)
        else if shouldBlockPromptInjection m = true then
          .ok (shortCircuitResponse injectionRepromptMessage)
        else
          .ok (chatReframeCore (turnCount + 1) (maxTurns / 2) outcome)
      else .error .dailyLimitReached
    else .error .apiKeyMissing
  else .error .operationNotAllowed

/-- Rejections of the chat route (POST /api/reframing/:sessionId/chat):
missing body fields, foreign session, completed session, or a service
error surfaced as a 500. -/
inductive ChatError where
  | missingFields : ChatError
  | accessDenied : ChatError
  | sessionCompleted : ChatError
  | internalError : ChatError
deriving DecidableEq

/-- JSON payload the chat route returns on success (routes.ts). -/
structure ChatPayload where
  message : String
  isComplete : Bool
  finalReframedThought : Option String
  nextSuggestion : Option String
  showPacingOptions : Bool
  reachedTurnLimit : Bool
  turnCount : Nat
  maxTurns : Nat
deriving DecidableEq

/-- Body of the chat route after the session was found and the guards
passed: call chatReframe, append the user and assistant messages to the
history, increment the turn count, and mark completion only when the
response signals isComplete with a truthy finalReframedThought
(routes.ts).  The update is the object-spread merge of
MemStorage.updateReframingSession. -/
def chatStepMain (s : ReframingSession) (message : String)
    (apiKeyConfigured : Bool) (outcome : ModelOutcome) (now : Nat) :
    Except ChatError ChatPayload × ReframingSession :=
  match chatReframe message (effTurnCount s) (effMaxTurns s) 0 apiKeyConfigured outcome with
  | .error _ => (.error .internalError, s)
  | .ok resp =>
    let newTurnCount := effTurnCount s + 1
    let updatedHistory := s.chatHistory ++
      [{ role := roleUser, content := message, timestamp := now },
       { role := roleAssistant, content := resp.message, timestamp := now }]
    let s' :=
      if resp.isComplete && optTruthy resp.finalReframedThought then
        { s with chatHistory := updatedHistory, turnCount := some newTurnCount,
                 isCompleted := true, finalReframedThought := resp.finalReframedThought,
                 completedAt := some now }
      else
        { s with chatHistory := updatedHistory, turnCount := some newTurnCount }
    (.ok { message := resp.message, isComplete := resp.isComplete,
           finalReframedThought := resp.finalReframedThought,
           nextSuggestion := resp.nextSuggestion,
           showPacingOptions := resp.showPacingOptions,
           reachedTurnLimit := resp.reachedTurnLimit,
           turnCount := newTurnCount, maxTurns := effMaxTurns s }, s')

/-- POST /api/reframing/:sessionId/chat from routes.ts, for a session the
store resolved: reject blank message or falsy userId, then a foreign
session, then a completed session; otherwise run the main body.  The
second component is the stored session after the call. -/
def chatStep (s : ReframingSession) (message : String) (userId : Nat)
    (apiKeyConfigured : Bool) (outcome : ModelOutcome) (now : Nat) :
    Except ChatError ChatPayload × ReframingSession :=
  if message = "" ∨ userId = 0 then (.error .missingFields, s)
  else if s.userId ≠ userId then (.error .accessDenied, s)
  else if s.isCompleted = true then (.error .sessionCompleted, s)
  else chatStepMain s message apiKeyConfigured outcome now

/-- Rejections of the start route (POST /api/reframing/start): a zod
parse failure (unknown method, empty selectedThought or distortionType)
or a rules-validation failure on the selected thought. -/
inductive StartError where
  | invalidRequest : StartError
  | invalidThought : StartError
deriving DecidableEq

/-- Request body of the start route. -/
structure StartBody where
  journalSessionId : Nat
  userId : Nat
  selectedThought : String
  distortionType : String
  reframingMethod : String
deriving DecidableEq

/-- The five-member reframing method enumeration from the zod schema in
routes.ts. -/
def methodEnumeration : List String :=
  ["evidenceCheck", "alternativePerspectives", "balancedThinking",
   "compassionateSelf", "actionOriented"]

/-- The zod schema of the start route: selectedThought and distortionType
non-empty, reframingMethod in the enumeration. -/
def startBodyZodOk (b : StartBody) : Bool :=
  decide (1 ≤ b.selectedThought.length) &&
  decide (1 ≤ b.distortionType.length) &&
  methodEnumeration.contains b.reframingMethod

/-- MemStorage.createReframingSession from server/storage.ts applied to
the insert record the start route builds (empty chatHistory, isCompleted
false): note the constructed object never assigns turnCount or maxTurns. -/
def createReframingSession (b : StartBody) (id now : Nat) : ReframingSession :=
  { id := id, journalSessionId := b.journalSessionId, userId := b.userId,
    selectedThought := b.selectedThought, distortionType := b.distortionType,
    reframingMethod := b.reframingMethod, chatHistory := [],
    finalReframedThought := none, isCompleted := false,
    turnCount := none, maxTurns := none, createdAt := now, completedAt := none }

/-- POST /api/reframing/start from routes.ts: zod parse, rules validation
of the selected thought, then session creation.  No model call occurs:
the definition does not consult any ModelOutcome. -/
def startRoute (b : StartBody) (id now : Nat) : Except StartError ReframingSession :=
  if startBodyZodOk b = true then
    if validateJournalEntry b.selectedThought = true then
      .ok (createReframingSession b id now)
    else .error .invalidThought
  else .error .invalidRequest

/-- Rejections of the session-detail route. -/
inductive GetError where
  | accessDenied : GetError
deriving DecidableEq

/-- GET /api/reframing/:sessionId from routes.ts, for a session the store
resolved: reject a foreign session, otherwise return the session; the
handler performs no write. -/
def getReframingSessionRoute (s : ReframingSession) (userId : Nat) :
    Except GetError ReframingSession :=
  if s.userId ≠ userId then .error .accessDenied else .ok s

theorem charPrefix_iff : ∀ (n h : List Char), n.isPrefixOf h = true ↔ ∃ t, n ++ t = h
  | [], h => by simp
  | a :: as, [] => by simp
  | a :: as, b :: bs => by
    rw [List.isPrefixOf_cons₂]
    simp only [Bool.and_eq_true, beq_iff_eq, charPrefix_iff as bs, List.cons_append,
      List.cons.injEq]
    constructor
    · rintro ⟨rfl, t, rfl⟩
      exact ⟨t, rfl, rfl⟩
    · rintro ⟨t, rfl, rfl⟩
      exact ⟨rfl, t, rfl⟩

theorem strIncludes_iff : ∀ (n h : List Char), strIncludes n h = true ↔ ∃ u v, u ++ n ++ v = h
  | n, [] => by
    simp only [strIncludes, List.isEmpty_iff]
    constructor
    · rintro rfl
      exact ⟨[], [], rfl⟩
    · rintro ⟨u, v, h⟩
      have h2 : u = [] ∧ n = [] ∧ v = [] := by simpa using h
      exact h2.2.1
  | n, c :: rest => by
    simp only [strIncludes, Bool.or_eq_true, charPrefix_iff, strIncludes_iff n rest]
    constructor
    · rintro (⟨t, ht⟩ | ⟨u, v, rfl⟩)
      · exact ⟨[], t, by simpa using ht⟩
      · exact ⟨c :: u, v, rfl⟩
    · rintro ⟨u, v, h⟩
      cases u with
      | nil => exact .inl ⟨v, by simpa using h⟩
      | cons c' u' =>
        rw [List.cons_append, List.cons_append] at h
        cases h
        exact .inr ⟨u', v, rfl⟩

/-- C10: isCrisisText is exactly case-insensitive substring matching of the
six fixed crisis trigger phrases over the lowercased input, and
shouldBlockPromptInjection is the same matching over the fixed jailbreak
phrase list. -/
theorem c10_screening_is_substring_matching (input : String) :
    (isCrisisText input = true ↔
      ∃ p ∈ crisisTriggerPhrases,
        ∃ u v, u ++ p.toList ++ v = input.toList.map Char.toLower) ∧
    (shouldBlockPromptInjection input = true ↔
      ∃ p ∈ jailbreakPhrases,
        ∃ u v, u ++ p.toList ++ v = input.toList.map Char.toLower) := by
  constructor
  · simp [isCrisisText, crisisDetectionEnabled, List.any_eq_true, strIncludes_iff]
  · simp [shouldBlockPromptInjection, blockJailbreakAttempts, List.any_eq_true, strIncludes_iff]


theorem allowed_guideReframingProcess : isAllowedAIUseCase "guideReframingProcess" = true := by
  decide

theorem chatReframe_crisis {message : String} (tc mt : Nat) (o : ModelOutcome)
    (hc : isCrisisText (sanitizeUserInput message) = true) :
    chatReframe message tc mt 0 true o = .ok (shortCircuitResponse crisisResponseTemplate) := by
  unfold chatReframe
  rw [if_pos allowed_guideReframingProcess, if_pos rfl, if_pos (by decide), if_pos hc]

theorem chatReframe_injection {message : String} (tc mt : Nat) (o : ModelOutcome)
    (hnc : isCrisisText (sanitizeUserInput message) = false)
    (hi : shouldBlockPromptInjection (sanitizeUserInput message) = true) :
    chatReframe message tc mt 0 true o = .ok (shortCircuitResponse injectionRepromptMessage) := by
  unfold chatReframe
  rw [if_pos allowed_guideReframingProcess, if_pos rfl, if_pos (by decide),
    if_neg (by simp [hnc]), if_pos hi]

theorem chatReframe_not_screened {message : String} (tc mt : Nat) (o : ModelOutcome)
    (hnc : isCrisisText (sanitizeUserInput message) = false)
    (hni : shouldBlockPromptInjection (sanitizeUserInput message) = false) :
    chatReframe message tc mt 0 true o = .ok (chatReframeCore (tc + 1) (mt / 2) o) := by
  unfold chatReframe
  rw [if_pos allowed_guideReframingProcess, if_pos rfl, if_pos (by decide),
    if_neg (by simp [hnc]), if_neg (by simp [hni])]

theorem chatStep_main {s : ReframingSession} {message : String} {userId : Nat}
    (key : Bool) (o : ModelOutcome) (now : Nat)
    (hm : message ≠ "") (hu : userId ≠ 0) (hown : s.userId = userId)
    (hact : s.isCompleted = false) :
    chatStep s message userId key o now = chatStepMain s message key o now := by
  unfold chatStep
  rw [if_neg (not_or.mpr ⟨hm, hu⟩), if_neg (by simp [hown]), if_neg (by simp [hact])]

theorem chatStepMain_eq_ok {s : ReframingSession} {message : String}
    {key : Bool} {o : ModelOutcome} {now : Nat} {resp : ReframingChatResponse}
    (h : chatReframe message (effTurnCount s) (effMaxTurns s) 0 key o = .ok resp) :
    chatStepMain s message key o now =
      (.ok { message := resp.message, isComplete := resp.isComplete,
             finalReframedThought := resp.finalReframedThought,
             nextSuggestion := resp.nextSuggestion,
             showPacingOptions := resp.showPacingOptions,
             reachedTurnLimit := resp.reachedTurnLimit,
             turnCount := effTurnCount s + 1, maxTurns := effMaxTurns s },
       if resp.isComplete && optTruthy resp.finalReframedThought then
         { s with
             chatHistory := s.chatHistory ++
               [{ role := roleUser, content := message, timestamp := now },
                { role := roleAssistant, content := resp.message, timestamp := now }],
             turnCount := some (effTurnCount s + 1), isCompleted := true,
             finalReframedThought := resp.finalReframedThought,
             completedAt := some now }
       else
         { s with
             chatHistory := s.chatHistory ++
               [{ role := roleUser, content := message, timestamp := now },
                { role := roleAssistant, content := resp.message, timestamp := now }],
             turnCount := some (effTurnCount s + 1) }) := by
  unfold chatStepMain
  rw [h]

/-- C4: a chat call by the owner against a completed session is rejected
with the session-completed error and the stored record is returned
untouched, so the rejection has no side effects and is idempotent. -/
theorem c4_completed_session_rejected (s : ReframingSession) (message : String)
    (userId now : Nat) (key : Bool) (o : ModelOutcome)
    (hm : message ≠ "") (hu : userId ≠ 0) (hown : s.userId = userId)
    (hc : s.isCompleted = true) :
    chatStep s message userId key o now = (.error .sessionCompleted, s) := by
  unfold chatStep
  rw [if_neg (not_or.mpr ⟨hm, hu⟩), if_neg (by simp [hown]), if_pos hc]

/-- Concrete completed session used to witness C4. -/
def c4Session : ReframingSession :=
  { id := 3, journalSessionId := 1, userId := 5,
    selectedThought := "Nobody respects my work",
    distortionType := "Mental Filtering", reframingMethod := "balancedThinking",
    chatHistory := [{ role := roleUser, content := "maybe", timestamp := 4 }],
    finalReframedThought := some "Some colleagues value my work",
    isCompleted := true, turnCount := some 4, maxTurns := none,
    createdAt := 2, completedAt := some 8 }

theorem c4_completed_session_rejected_witness :
    chatStep c4Session "one more message" 5 true .failure 11 =
      (.error .sessionCompleted, c4Session) :=
  c4_completed_session_rejected c4Session "one more message" 5 11 true .failure
    (by decide) (by decide) (by decide) (by decide)

/-- C9: a chat request whose userId differs from the owning userId of the
stored session is rejected with the access-denied error and leaves the
stored session unchanged, and the session-detail request under the same
mismatch is rejected as well, so neither endpoint lets one user read or
mutate a session of another user. -/
theorem c9_foreign_user_denied (s : ReframingSession) (message : String)
    (userId now : Nat) (key : Bool) (o : ModelOutcome)
    (hm : message ≠ "") (hu : userId ≠ 0) (hdiff : s.userId ≠ userId) :
    chatStep s message userId key o now = (.error .accessDenied, s) ∧
    getReframingSessionRoute s userId = .error .accessDenied := by
  constructor
  · unfold chatStep
    rw [if_neg (not_or.mpr ⟨hm, hu⟩), if_pos hdiff]
  · unfold getReframingSessionRoute
    rw [if_pos hdiff]

/-- Concrete session used to witness C9. -/
def c9Session : ReframingSession :=
  { id := 6, journalSessionId := 2, userId := 5,
    selectedThought := "I will never manage this project",
    distortionType := "Jumping to Conclusions", reframingMethod := "actionOriented",
    chatHistory := [], finalReframedThought := none, isCompleted := false,
    turnCount := some 1, maxTurns := none, createdAt := 2, completedAt := none }

theorem c9_foreign_user_denied_witness :
    (chatStep c9Session "let me see that" 8 true .failure 3 =
      (.error .accessDenied, c9Session)) ∧
    getReframingSessionRoute c9Session 8 = .error .accessDenied :=
  c9_foreign_user_denied c9Session "let me see that" 8 3 true .failure
    (by decide) (by decide) (by decide)

/-- Concrete active session used for the C2 counterexample. -/
def c2Session : ReframingSession :=
  { id := 1, journalSessionId := 1, userId := 7,
    selectedThought := "I always fail",
    distortionType := "Overgeneralization", reframingMethod := "evidenceCheck",
    chatHistory :=
      [{ role := roleUser, content := "I failed my exam", timestamp := 1 },
       { role := roleAssistant, content := "What does failing mean to you?", timestamp := 1 }],
    finalReframedThought := none, isCompleted := false,
    turnCount := some 2, maxTurns := none, createdAt := 0, completedAt := none }

set_option maxRecDepth 8192 in
/-- C2 counterexample: a crisis-triggering message against an active
session does return the fixed crisis message, but the stored session does
not keep its history and turn count: the route appends the user message
and the canned reply and increments turnCount from 2 to 3. -/
theorem c2_counterexample :
    ((chatStep c2Session "I want to die" 7 true
        (.success { message := "m", isComplete := false,
                    finalReframedThought := none, nextSuggestion := none }) 9).1.toOption.map
      ChatPayload.message) = some crisisResponseTemplate ∧
    (chatStep c2Session "I want to die" 7 true
        (.success { message := "m", isComplete := false,
                    finalReframedThought := none, nextSuggestion := none }) 9).2.turnCount = some 3 ∧
    c2Session.turnCount = some 2 ∧
    (chatStep c2Session "I want to die" 7 true
        (.success { message := "m", isComplete := false,
                    finalReframedThought := none, nextSuggestion := none }) 9).2.chatHistory.length =
      c2Session.chatHistory.length + 2 := by
  refine ⟨?_, ?_, ?_, ?_⟩ <;> decide

/-- C2 amended: a crisis or injection screened call on an active session
returns the corresponding fixed message with no completion and no pacing
flags, and it leaves status, finalReframedThought and completedAt
untouched; the stored history however gains the user message and the
canned reply, and turnCount is incremented, because the route appends and
counts every returned exchange. -/
theorem c2_screened_short_circuit (s : ReframingSession) (message : String)
    (userId now : Nat) (o : ModelOutcome)
    (hm : message ≠ "") (hu : userId ≠ 0) (hown : s.userId = userId)
    (hact : s.isCompleted = false)
    (hscreen : isCrisisText (sanitizeUserInput message) = true ∨
      (isCrisisText (sanitizeUserInput message) = false ∧
       shouldBlockPromptInjection (sanitizeUserInput message) = true)) :
    ∃ p : ChatPayload, (chatStep s message userId true o now).1 = .ok p ∧
      p.message = (if isCrisisText (sanitizeUserInput message) = true then
        crisisResponseTemplate else injectionRepromptMessage) ∧
      p.isComplete = false ∧ p.showPacingOptions = false ∧ p.reachedTurnLimit = false ∧
      (chatStep s message userId true o now).2 =
        { s with
            chatHistory := s.chatHistory ++
              [{ role := roleUser, content := message, timestamp := now },
               { role := roleAssistant, content := p.message, timestamp := now }],
            turnCount := some (effTurnCount s + 1) } := by
  rw [chatStep_main true o now hm hu hown hact]
  rcases hscreen with hc | ⟨hnc, hi⟩
  · rw [chatStepMain_eq_ok (chatReframe_crisis (effTurnCount s) (effMaxTurns s) o hc)]
    refine ⟨_, rfl, ?_, rfl, rfl, rfl, ?_⟩
    · rw [if_pos hc]
      rfl
    · rw [if_neg (by simp [shortCircuitResponse])]
  · rw [chatStepMain_eq_ok (chatReframe_injection (effTurnCount s) (effMaxTurns s) o hnc hi)]
    refine ⟨_, rfl, ?_, rfl, rfl, rfl, ?_⟩
    · rw [if_neg (by simp [hnc])]
      rfl
    · rw [if_neg (by simp [shortCircuitResponse])]

/-- Concrete active session used to witness the amended C2. -/
def c2WitnessSession : ReframingSession :=
  { id := 2, journalSessionId := 1, userId := 4,
    selectedThought := "I ruin everything",
    distortionType := "Magnification", reframingMethod := "compassionateSelf",
    chatHistory := [], finalReframedThought := none, isCompleted := false,
    turnCount := none, maxTurns := none, createdAt := 0, completedAt := none }

set_option maxRecDepth 8192 in
theorem c2_screened_short_circuit_witness :
    ∃ p : ChatPayload,
      (chatStep c2WitnessSession "life is not worth living" 4 true .failure 2).1 = .ok p ∧
      p.message = (if isCrisisText (sanitizeUserInput "life is not worth living") = true then
        crisisResponseTemplate else injectionRepromptMessage) ∧
      p.isComplete = false ∧ p.showPacingOptions = false ∧ p.reachedTurnLimit = false ∧
      (chatStep c2WitnessSession "life is not worth living" 4 true .failure 2).2 =
        { c2WitnessSession with
            chatHistory := c2WitnessSession.chatHistory ++
              [{ role := roleUser, content := "life is not worth living", timestamp := 2 },
               { role := roleAssistant, content := p.message, timestamp := 2 }],
            turnCount := some (effTurnCount c2WitnessSession + 1) } :=
  c2_screened_short_circuit c2WitnessSession "life is not worth living" 4 2 .failure
    (by decide) (by decide) (by decide) (by decide) (.inl (by decide))

theorem core_complete_condition (n limit : Nat) (o : ModelOutcome) :
    ((chatReframeCore n limit o).isComplete &&
      optTruthy (chatReframeCore n limit o).finalReframedThought) =
    (chatReframeCore n limit o).isComplete := by
  cases o with
  | failure => rfl
  | success r =>
    by_cases hr : r.message = ""
    · simp [chatReframeCore, hr, adapterFallbackResponse]
    · simp only [chatReframeCore, if_neg hr]
      by_cases hc : ((r.isComplete && optTruthy r.finalReframedThought) ||
          decide (limit ≤ n)) = true
      · simp only [hc, if_true, Bool.true_and]
        by_cases ht : optTruthy r.finalReframedThought = true
        · simp [ht]
        · simp only [Bool.not_eq_true] at ht
          simp [ht]
          decide
      · simp only [Bool.not_eq_true] at hc
        simp [hc]

theorem core_pacing (n limit : Nat) (o : ModelOutcome) :
    (chatReframeCore n limit o).showPacingOptions =
      (decide (n % 3 = 0) && decide (0 < n) &&
        !(chatReframeCore n limit o).isComplete) := by
  cases o with
  | failure => simp [chatReframeCore, adapterFallbackResponse]
  | success r =>
    by_cases hr : r.message = ""
    · simp [chatReframeCore, hr, adapterFallbackResponse]
    · simp [chatReframeCore, if_neg hr]

/-- Concrete active session used for the C3 counterexample. -/
def c3Session : ReframingSession :=
  { id := 4, journalSessionId := 1, userId := 7,
    selectedThought := "I am a burden to everyone",
    distortionType := "Labeling", reframingMethod := "alternativePerspectives",
    chatHistory :=
      [{ role := roleUser, content := "it feels that way", timestamp := 1 },
       { role := roleAssistant, content := "Who told you that?", timestamp := 1 },
       { role := roleUser, content := "nobody really", timestamp := 2 },
       { role := roleAssistant, content := "What would they actually say?", timestamp := 2 }],
    finalReframedThought := none, isCompleted := false,
    turnCount := some 2, maxTurns := none, createdAt := 0, completedAt := none }

set_option maxRecDepth 8192 in
/-- C3 counterexample: a crisis-screened call that entered with status
active ends with updated turnCount 3 (a positive multiple of 3) on a
session that is still not completed, yet the pacing flag in the response
is false, refuting the stated iff. -/
theorem c3_counterexample :
    ((chatStep c3Session "I want to die" 7 true
        (.success { message := "x", isComplete := false,
                    finalReframedThought := none, nextSuggestion := none }) 9).1.toOption.map
      ChatPayload.showPacingOptions) = some false ∧
    ((chatStep c3Session "I want to die" 7 true
        (.success { message := "x", isComplete := false,
                    finalReframedThought := none, nextSuggestion := none }) 9).1.toOption.map
      ChatPayload.turnCount) = some 3 ∧
    3 % 3 = 0 ∧
    (chatStep c3Session "I want to die" 7 true
        (.success { message := "x", isComplete := false,
                    finalReframedThought := none, nextSuggestion := none }) 9).2.isCompleted =
      false ∧
    c3Session.isCompleted = false := by
  refine ⟨?_, ?_, ?_, ?_, ?_⟩ <;> decide

/-- C3 amended: for every call that passes the safety screens (the
screened short circuits carry no pacing flag even when the incremented
turn count is a multiple of three), entering with status active, the
response pacing flag is true iff the updated turn count is a positive
multiple of 3 and the session is not completed after the call. -/
theorem c3_pacing_iff (s : ReframingSession) (message : String)
    (userId now : Nat) (o : ModelOutcome)
    (hm : message ≠ "") (hu : userId ≠ 0) (hown : s.userId = userId)
    (hact : s.isCompleted = false)
    (hnc : isCrisisText (sanitizeUserInput message) = false)
    (hni : shouldBlockPromptInjection (sanitizeUserInput message) = false) :
    ∃ p : ChatPayload, (chatStep s message userId true o now).1 = .ok p ∧
      p.turnCount = effTurnCount s + 1 ∧
      (p.showPacingOptions = true ↔
        (p.turnCount % 3 = 0 ∧ 0 < p.turnCount ∧
         (chatStep s message userId true o now).2.isCompleted = false)) := by
  rw [chatStep_main true o now hm hu hown hact,
    chatStepMain_eq_ok (chatReframe_not_screened (effTurnCount s) (effMaxTurns s) o hnc hni)]
  refine ⟨_, rfl, rfl, ?_⟩
  rw [core_complete_condition]
  cases hcomp : (chatReframeCore (effTurnCount s + 1) (effMaxTurns s / 2) o).isComplete with
  | false =>
    simp only [hcomp, Bool.false_eq_true, if_false]
    have hp := core_pacing (effTurnCount s + 1) (effMaxTurns s / 2) o
    rw [hcomp] at hp
    simp [hp, hact]
  | true =>
    simp only [hcomp, if_true]
    have hp := core_pacing (effTurnCount s + 1) (effMaxTurns s / 2) o
    rw [hcomp] at hp
    simp [hp]

/-- Concrete active session used to witness the amended C3. -/
def c3WitnessSession : ReframingSession :=
  { id := 5, journalSessionId := 2, userId := 9,
    selectedThought := "I cannot handle pressure",
    distortionType := "All-or-Nothing Thinking", reframingMethod := "balancedThinking",
    chatHistory := [], finalReframedThought := none, isCompleted := false,
    turnCount := some 2, maxTurns := none, createdAt := 1, completedAt := none }

set_option maxRecDepth 8192 in
theorem c3_pacing_iff_witness :
    ∃ p : ChatPayload,
      (chatStep c3WitnessSession "sometimes I do fine" 9 true
        (.success { message := "Tell me about one of those times.", isComplete := false,
                    finalReframedThought := none, nextSuggestion := none }) 4).1 = .ok p ∧
      p.turnCount = effTurnCount c3WitnessSession + 1 ∧
      (p.showPacingOptions = true ↔
        (p.turnCount % 3 = 0 ∧ 0 < p.turnCount ∧
         (chatStep c3WitnessSession "sometimes I do fine" 9 true
            (.success { message := "Tell me about one of those times.", isComplete := false,
                        finalReframedThought := none, nextSuggestion := none }) 4).2.isCompleted =
           false)) :=
  c3_pacing_iff c3WitnessSession "sometimes I do fine" 9 4
    (.success { message := "Tell me about one of those times.", isComplete := false,
                finalReframedThought := none, nextSuggestion := none })
    (by decide) (by decide) (by decide) (by decide) (by decide) (by decide)

theorem jsOrNat_some_zero (n : Nat) : jsOrNat (some n) 0 = n := by
  cases n <;> rfl

/-- C5: when the model adapter throws or times out, or returns output
failing parse validation, the non-screened call still succeeds with the
fixed fallback message, the session is not marked complete, the user
message (followed by the fallback reply) is appended to the history, and
the turn count observed by the route increases by exactly one. -/
theorem c5_adapter_failure_fallback (s : ReframingSession) (message : String)
    (userId now : Nat) (o : ModelOutcome)
    (hm : message ≠ "") (hu : userId ≠ 0) (hown : s.userId = userId)
    (hact : s.isCompleted = false)
    (hnc : isCrisisText (sanitizeUserInput message) = false)
    (hni : shouldBlockPromptInjection (sanitizeUserInput message) = false)
    (hfail : o = .failure ∨ ∃ r, o = .success r ∧ r.message = "") :
    ∃ p : ChatPayload, (chatStep s message userId true o now).1 = .ok p ∧
      p.message = adapterFallbackMessage ∧ p.isComplete = false ∧
      (chatStep s message userId true o now).2.isCompleted = false ∧
      (chatStep s message userId true o now).2.chatHistory =
        s.chatHistory ++
          [{ role := roleUser, content := message, timestamp := now },
           { role := roleAssistant, content := adapterFallbackMessage, timestamp := now }] ∧
      effTurnCount (chatStep s message userId true o now).2 = effTurnCount s + 1 := by
  rw [chatStep_main true o now hm hu hown hact,
    chatStepMain_eq_ok (chatReframe_not_screened (effTurnCount s) (effMaxTurns s) o hnc hni)]
  have hcore : chatReframeCore (effTurnCount s + 1) (effMaxTurns s / 2) o =
      adapterFallbackResponse (effTurnCount s + 1) (effMaxTurns s / 2) := by
    rcases hfail with rfl | ⟨r, rfl, hr⟩
    · rfl
    · simp [chatReframeCore, hr]
  rw [hcore]
  refine ⟨_, rfl, rfl, rfl, ?_, ?_, ?_⟩
  · simp [adapterFallbackResponse, optTruthy, hact]
  · simp [adapterFallbackResponse, optTruthy]
  · simp [adapterFallbackResponse, optTruthy, effTurnCount, jsOrNat_some_zero]

/-- Concrete active session used to witness C5: one exchange already
recorded, the adapter fails on the second message. -/
def c5Session : ReframingSession :=
  { id := 7, journalSessionId := 3, userId := 2,
    selectedThought := "I will be fired tomorrow",
    distortionType := "Jumping to Conclusions", reframingMethod := "evidenceCheck",
    chatHistory :=
      [{ role := roleUser, content := "my boss frowned at me", timestamp := 1 },
       { role := roleAssistant, content := "What else could the frown mean?", timestamp := 1 }],
    finalReframedThought := none, isCompleted := false,
    turnCount := some 1, maxTurns := none, createdAt := 0, completedAt := none }

set_option maxRecDepth 8192 in
theorem c5_adapter_failure_fallback_witness :
    ∃ p : ChatPayload,
      (chatStep c5Session "maybe he was tired" 2 true .failure 6).1 = .ok p ∧
      p.message = adapterFallbackMessage ∧ p.isComplete = false ∧
      (chatStep c5Session "maybe he was tired" 2 true .failure 6).2.isCompleted = false ∧
      (chatStep c5Session "maybe he was tired" 2 true .failure 6).2.chatHistory =
        c5Session.chatHistory ++
          [{ role := roleUser, content := "maybe he was tired", timestamp := 6 },
           { role := roleAssistant, content := adapterFallbackMessage, timestamp := 6 }] ∧
      effTurnCount (chatStep c5Session "maybe he was tired" 2 true .failure 6).2 =
        effTurnCount c5Session + 1 :=
  c5_adapter_failure_fallback c5Session "maybe he was tired" 2 6 .failure
    (by decide) (by decide) (by decide) (by decide) (by decide) (by decide) (.inl rfl)

/-- C7: starting a session with a method outside the five-member
enumeration or with an empty selectedThought is rejected by the schema
parse and creates no session, while valid input yields a fresh session
that is not completed, has an effective turn count of 0 (the stored field
is never assigned) and an empty history, with the submitted fields copied
over; startRoute consults no model outcome, so no model call is made. -/
theorem c7_start_session (b : StartBody) (id now : Nat) :
    ((methodEnumeration.contains b.reframingMethod = false ∨ b.selectedThought = "") →
      startRoute b id now = .error .invalidRequest) ∧
    (startBodyZodOk b = true → validateJournalEntry b.selectedThought = true →
      ∃ s, startRoute b id now = .ok s ∧ s.isCompleted = false ∧
        effTurnCount s = 0 ∧ s.turnCount = none ∧ s.maxTurns = none ∧
        s.chatHistory = [] ∧ s.userId = b.userId ∧
        s.journalSessionId = b.journalSessionId ∧
        s.selectedThought = b.selectedThought ∧
        s.distortionType = b.distortionType ∧
        s.reframingMethod = b.reframingMethod ∧
        s.finalReframedThought = none ∧ s.completedAt = none) := by
  constructor
  · intro hbad
    have hz : startBodyZodOk b = false := by
      rcases hbad with hmeth | hempty
      · unfold startBodyZodOk
        rw [hmeth]
        simp
      · simp [startBodyZodOk, hempty]
    unfold startRoute
    rw [if_neg (by simp [hz])]
  · intro hz hv
    refine ⟨createReframingSession b id now, ?_, rfl, rfl, rfl, rfl, rfl, rfl, rfl, rfl,
      rfl, rfl, rfl, rfl⟩
    unfold startRoute
    rw [if_pos hz, if_pos hv]

/-- Start body with an unknown method, used to witness the reject side of C7. -/
def c7BadBody : StartBody :=
  { journalSessionId := 1, userId := 3,
    selectedThought := "I am unlovable", distortionType := "Labeling",
    reframingMethod := "hypnosis" }

/-- Valid start body used to witness the accept side of C7. -/
def c7GoodBody : StartBody :=
  { journalSessionId := 1, userId := 3,
    selectedThought := "I am unlovable", distortionType := "Labeling",
    reframingMethod := "compassionateSelf" }

theorem c7_start_session_witness :
    startRoute c7BadBody 10 0 = .error .invalidRequest ∧
    ∃ s, startRoute c7GoodBody 10 0 = .ok s ∧ s.isCompleted = false ∧
      effTurnCount s = 0 ∧ s.turnCount = none ∧ s.maxTurns = none ∧
      s.chatHistory = [] ∧ s.userId = c7GoodBody.userId ∧
      s.journalSessionId = c7GoodBody.journalSessionId ∧
      s.selectedThought = c7GoodBody.selectedThought ∧
      s.distortionType = c7GoodBody.distortionType ∧
      s.reframingMethod = c7GoodBody.reframingMethod ∧
      s.finalReframedThought = none ∧ s.completedAt = none :=
  ⟨(c7_start_session c7BadBody 10 0).1 (.inl (by decide)),
   (c7_start_session c7GoodBody 10 0).2 (by decide) (by decide)⟩

/-- C8: a chat call never rewrites the statically assigned session fields:
id, journalSessionId, userId, selectedThought, distortionType,
reframingMethod, maxTurns and createdAt are identical before and after
every chatStep, on every control path; only chatHistory, turnCount,
isCompleted, finalReframedThought and completedAt can change. -/
theorem c8_static_fields_preserved (s : ReframingSession) (message : String)
    (userId : Nat) (key : Bool) (o : ModelOutcome) (now : Nat) :
    (chatStep s message userId key o now).2.reframingMethod = s.reframingMethod ∧
    (chatStep s message userId key o now).2.selectedThought = s.selectedThought ∧
    (chatStep s message userId key o now).2.id = s.id ∧
    (chatStep s message userId key o now).2.journalSessionId = s.journalSessionId ∧
    (chatStep s message userId key o now).2.userId = s.userId ∧
    (chatStep s message userId key o now).2.distortionType = s.distortionType ∧
    (chatStep s message userId key o now).2.maxTurns = s.maxTurns ∧
    (chatStep s message userId key o now).2.createdAt = s.createdAt := by
  unfold chatStep
  split_ifs with h1 h2 h3
  · exact ⟨rfl, rfl, rfl, rfl, rfl, rfl, rfl, rfl⟩
  · exact ⟨rfl, rfl, rfl, rfl, rfl, rfl, rfl, rfl⟩
  · exact ⟨rfl, rfl, rfl, rfl, rfl, rfl, rfl, rfl⟩
  · unfold chatStepMain
    cases hcr : chatReframe message (effTurnCount s) (effMaxTurns s) 0 key o with
    | error e => simp
    | ok resp =>
      simp only []
      split <;> simp

/-- Sessions reachable through the controller: created by the start route
and then mutated exclusively by chat calls. -/
inductive Reachable : ReframingSession → Prop
  | start (b : StartBody) (id now : Nat) (s : ReframingSession) :
      startRoute b id now = .ok s → Reachable s
  | step (s : ReframingSession) (message : String) (userId : Nat) (key : Bool)
      (o : ModelOutcome) (now : Nat) :
      Reachable s → Reachable (chatStep s message userId key o now).2

theorem chatStep_of_completed (s : ReframingSession) (message : String)
    (userId : Nat) (key : Bool) (o : ModelOutcome) (now : Nat)
    (hc : s.isCompleted = true) :
    (chatStep s message userId key o now).2 = s := by
  unfold chatStep
  split_ifs <;> rfl

theorem chatStep_completion_fields (s : ReframingSession) (message : String)
    (userId : Nat) (key : Bool) (o : ModelOutcome) (now : Nat) :
    ((chatStep s message userId key o now).2.isCompleted = s.isCompleted ∧
     (chatStep s message userId key o now).2.finalReframedThought = s.finalReframedThought ∧
     (chatStep s message userId key o now).2.completedAt = s.completedAt) ∨
    ((chatStep s message userId key o now).2.isCompleted = true ∧
     optTruthy (chatStep s message userId key o now).2.finalReframedThought = true ∧
     (chatStep s message userId key o now).2.completedAt.isSome = true) := by
  unfold chatStep
  split_ifs with h1 h2 h3
  · exact .inl ⟨rfl, rfl, rfl⟩
  · exact .inl ⟨rfl, rfl, rfl⟩
  · exact .inl ⟨rfl, rfl, rfl⟩
  · unfold chatStepMain
    cases hcr : chatReframe message (effTurnCount s) (effMaxTurns s) 0 key o with
    | error e => exact .inl ⟨rfl, rfl, rfl⟩
    | ok resp =>
      simp only []
      split_ifs with hdone
      · refine .inr ⟨rfl, ?_, rfl⟩
        simp only [Bool.and_eq_true] at hdone
        exact hdone.2
      · exact .inl ⟨rfl, rfl, rfl⟩

theorem reachable_completed_fields {s : ReframingSession} (h : Reachable s) :
    s.isCompleted = true →
    optTruthy s.finalReframedThought = true ∧ s.completedAt.isSome = true := by
  induction h with
  | start b id now s hs =>
    intro hc
    unfold startRoute at hs
    by_cases h1 : startBodyZodOk b = true
    · rw [if_pos h1] at hs
      by_cases h2 : validateJournalEntry b.selectedThought = true
      · rw [if_pos h2] at hs
        cases hs
        cases hc
      · rw [if_neg h2] at hs
        cases hs
    · rw [if_neg h1] at hs
      cases hs
  | step s message userId key o now hr ih =>
    intro hc
    rcases chatStep_completion_fields s message userId key o now with
      ⟨h1, h2, h3⟩ | ⟨h1, h2, h3⟩
    · rw [h1] at hc
      rw [h2, h3]
      exact ih hc
    · exact ⟨h2, h3⟩

/-- C6: in every reachable session state, completed implies a truthy
(non-empty) finalReframedThought and a set completedAt; and a completed
session is never mutated again, every chat call returning the record
unchanged. -/
theorem c6_completed_invariant (s : ReframingSession) (h : Reachable s)
    (hc : s.isCompleted = true) :
    (optTruthy s.finalReframedThought = true ∧ s.completedAt.isSome = true) ∧
    ∀ (message : String) (userId : Nat) (key : Bool) (o : ModelOutcome) (now : Nat),
      (chatStep s message userId key o now).2 = s := by
  refine ⟨reachable_completed_fields h hc, ?_⟩
  intro message userId key o now
  exact chatStep_of_completed s message userId key o now hc

/-- Start body used to witness C6. -/
def c6Body : StartBody :=
  { journalSessionId := 2, userId := 6,
    selectedThought := "I am a failure", distortionType := "Labeling",
    reframingMethod := "evidenceCheck" }

/-- Freshly created session used to witness C6. -/
def c6Start : ReframingSession := createReframingSession c6Body 11 0

/-- Model reply that completes the session, used to witness C6. -/
def c6Reply : ModelReply :=
  { message := "Great work. You are ready to write your reframe.",
    isComplete := true,
    finalReframedThought := some "I have failed at times and succeeded at others",
    nextSuggestion := none }

/-- The completed session reached after one successful exchange. -/
def c6Completed : ReframingSession :=
  (chatStep c6Start "I see some evidence against it" 6 true (.success c6Reply) 3).2

set_option maxRecDepth 8192 in
theorem c6_completed_invariant_witness :
    (optTruthy c6Completed.finalReframedThought = true ∧
      c6Completed.completedAt.isSome = true) ∧
    ∀ (message : String) (userId : Nat) (key : Bool) (o : ModelOutcome) (now : Nat),
      (chatStep c6Completed message userId key o now).2 = c6Completed :=
  c6_completed_invariant c6Completed
    (Reachable.step c6Start "I see some evidence against it" 6 true (.success c6Reply) 3
      (Reachable.start c6Body 11 0 c6Start rfl))
    (by decide)

/-- A call that is neither crisis- nor injection-screened and whose model
round trip succeeds with a reply that passes parse validation. -/
def okCall (c : String × ModelOutcome) : Bool :=
  decide (isCrisisText (sanitizeUserInput c.1) = false) &&
  decide (shouldBlockPromptInjection (sanitizeUserInput c.1) = false) &&
  (match c.2 with
   | .failure => false
   | .success r => decide (r.message ≠ ""))

/-- Iterated chat calls against one session, in order. -/
def runChat (s : ReframingSession) (userId : Nat) (key : Bool) (now : Nat) :
    List (String × ModelOutcome) → ReframingSession
  | [] => s
  | c :: rest => runChat (chatStep s c.1 userId key c.2 now).2 userId key now rest

/-- Inductive invariant for the turn ceiling on sessions created by the
start route: the effective turn count never passes 6, reaching 6 forces
completion, and the stored maxTurns stays unassigned (so the route keeps
reading the default 12). -/
def TurnInvariant (s : ReframingSession) : Prop :=
  effTurnCount s ≤ 6 ∧ (effTurnCount s = 6 → s.isCompleted = true) ∧ s.maxTurns = none

theorem turnInvariant_create (b : StartBody) (id t : Nat) (s : ReframingSession)
    (h : startRoute b id t = .ok s) : TurnInvariant s := by
  unfold startRoute at h
  by_cases h1 : startBodyZodOk b = true
  · rw [if_pos h1] at h
    by_cases h2 : validateJournalEntry b.selectedThought = true
    · rw [if_pos h2] at h
      cases h
      refine ⟨?_, ?_, rfl⟩
      · show (0 : Nat) ≤ 6
        omega
      · intro h6
        have h06 : (0 : Nat) = 6 := h6
        omega
    · rw [if_neg h2] at h
      cases h
  · rw [if_neg h1] at h
    cases h

theorem chatReframe_no_key (message : String) (tc mt : Nat) (o : ModelOutcome) :
    chatReframe message tc mt 0 false o = .error .apiKeyMissing := by
  unfold chatReframe
  rw [if_pos allowed_guideReframingProcess, if_neg (by simp)]

theorem core_at_limit (n limit : Nat) (r : ModelReply)
    (hr : r.message ≠ "") (hl : limit ≤ n) :
    (chatReframeCore n limit (.success r)).isComplete = true := by
  simp [chatReframeCore, hr, hl]

theorem core_final_truthy (n limit : Nat) (o : ModelOutcome)
    (h : (chatReframeCore n limit o).isComplete = true) :
    optTruthy (chatReframeCore n limit o).finalReframedThought = true := by
  have hc := core_complete_condition n limit o
  rw [h, Bool.true_and] at hc
  exact hc

theorem turnInvariant_step (s : ReframingSession) (c : String × ModelOutcome)
    (userId : Nat) (key : Bool) (now : Nat)
    (hinv : TurnInvariant s) (hok : okCall c = true) :
    TurnInvariant (chatStep s c.1 userId key c.2 now).2 := by
  obtain ⟨hle, h6, hmax⟩ := hinv
  rcases c with ⟨msg, o⟩
  cases o with
  | failure => simp [okCall] at hok
  | success r =>
    simp only [okCall, Bool.and_eq_true, decide_eq_true_eq] at hok
    obtain ⟨⟨hnc, hni⟩, hr⟩ := hok
    unfold chatStep
    split_ifs with h1 h2 h3
    · exact ⟨hle, h6, hmax⟩
    · exact ⟨hle, h6, hmax⟩
    · exact ⟨hle, h6, hmax⟩
    · have hact : s.isCompleted = false := by
        cases hcs : s.isCompleted
        · rfl
        · exact absurd hcs h3
      have htc5 : effTurnCount s ≤ 5 := by
        rcases Nat.lt_or_ge (effTurnCount s) 6 with hlt | hge
        · omega
        · exfalso
          have : effTurnCount s = 6 := by omega
          rw [h6 this] at hact
          cases hact
      cases key with
      | false =>
        unfold chatStepMain
        rw [chatReframe_no_key]
        exact ⟨hle, h6, hmax⟩
      | true =>
        rw [chatStepMain_eq_ok
          (chatReframe_not_screened (effTurnCount s) (effMaxTurns s) (.success r) hnc hni)]
        have hm12 : effMaxTurns s = 12 := by
          unfold effMaxTurns
          rw [hmax]
          rfl
        rw [core_complete_condition]
        rw [hm12]
        cases hcomp : (chatReframeCore (effTurnCount s + 1) (12 / 2) (.success r)).isComplete with
        | true =>
          rw [if_pos rfl]
          refine ⟨?_, ?_, hmax⟩
          · rw [effTurnCount]
            rw [jsOrNat_some_zero]
            omega
          · intro _
            rfl
        | false =>
          rw [if_neg (by simp)]
          refine ⟨?_, ?_, hmax⟩
          · rw [effTurnCount]
            rw [jsOrNat_some_zero]
            omega
          · intro hsix
            exfalso
            rw [effTurnCount, jsOrNat_some_zero] at hsix
            have hforced : (chatReframeCore (effTurnCount s + 1) (12 / 2) (.success r)).isComplete = true :=
              core_at_limit (effTurnCount s + 1) (12 / 2) r hr (by omega)
            rw [hforced] at hcomp
            cases hcomp

theorem turnInvariant_run (calls : List (String × ModelOutcome))
    (s : ReframingSession) (userId : Nat) (key : Bool) (now : Nat)
    (hinv : TurnInvariant s) (hok : ∀ c ∈ calls, okCall c = true) :
    TurnInvariant (runChat s userId key now calls) := by
  induction calls generalizing s with
  | nil => exact hinv
  | cons c rest ih =>
    exact ih (chatStep s c.1 userId key c.2 now).2
      (turnInvariant_step s c userId key now hinv (hok c (List.mem_cons_self c rest)))
      (fun d hd => hok d (List.mem_cons_of_mem c hd))

theorem sixth_exchange (s : ReframingSession) (msg : String) (o : ModelOutcome)
    (userId now : Nat) (hmax : s.maxTurns = none)
    (h5 : effTurnCount s = 5) (hact : s.isCompleted = false)
    (hok : okCall (msg, o) = true) (hm : msg ≠ "") (hu : userId ≠ 0)
    (hown : s.userId = userId) :
    ∃ p : ChatPayload, (chatStep s msg userId true o now).1 = .ok p ∧
      p.isComplete = true ∧ p.reachedTurnLimit = true ∧
      optTruthy p.finalReframedThought = true ∧ p.turnCount = 6 ∧
      (chatStep s msg userId true o now).2.isCompleted = true := by
  cases o with
  | failure => simp [okCall] at hok
  | success r =>
    simp only [okCall, Bool.and_eq_true, decide_eq_true_eq] at hok
    obtain ⟨⟨hnc, hni⟩, hr⟩ := hok
    rw [chatStep_main true (.success r) now hm hu hown hact,
      chatStepMain_eq_ok
        (chatReframe_not_screened (effTurnCount s) (effMaxTurns s) (.success r) hnc hni)]
    have hm12 : effMaxTurns s = 12 := by
      unfold effMaxTurns
      rw [hmax]
      rfl
    rw [hm12, h5]
    have hforced : (chatReframeCore (5 + 1) (12 / 2) (.success r)).isComplete = true :=
      core_at_limit (5 + 1) (12 / 2) r hr (by omega)
    refine ⟨_, rfl, hforced, ?_, core_final_truthy _ _ _ hforced, rfl, ?_⟩
    · simp [chatReframeCore, hr]
    · rw [core_complete_condition, if_pos hforced]

/-- C1: starting from any session the start route created, along any
sequence of successful non-screened exchanges the effective turn count
never exceeds 6; and a successful non-screened call entering at turn
count 5 (the 6th exchange) always returns isComplete true,
reachedTurnLimit true and a truthy (non-empty) finalReframedThought, and
leaves the session completed, regardless of what the model replied. -/
theorem c1_turn_ceiling_forced_completion (b : StartBody) (id t : Nat)
    (s0 : ReframingSession) (calls : List (String × ModelOutcome))
    (userId : Nat) (key : Bool) (now : Nat)
    (h0 : startRoute b id t = .ok s0)
    (hok : ∀ c ∈ calls, okCall c = true) :
    effTurnCount (runChat s0 userId key now calls) ≤ 6 ∧
    (∀ (msg : String) (o : ModelOutcome),
      okCall (msg, o) = true → msg ≠ "" → userId ≠ 0 →
      (runChat s0 userId key now calls).userId = userId →
      effTurnCount (runChat s0 userId key now calls) = 5 →
      (runChat s0 userId key now calls).isCompleted = false →
      ∃ p : ChatPayload,
        (chatStep (runChat s0 userId key now calls) msg userId true o now).1 = .ok p ∧
        p.isComplete = true ∧ p.reachedTurnLimit = true ∧
        optTruthy p.finalReframedThought = true ∧ p.turnCount = 6 ∧
        (chatStep (runChat s0 userId key now calls) msg userId true o now).2.isCompleted =
          true) := by
  have hinv := turnInvariant_run calls s0 userId key now (turnInvariant_create b id t s0 h0) hok
  refine ⟨hinv.1, ?_⟩
  intro msg o hokc hm hu hown h5 hact
  exact sixth_exchange (runChat s0 userId key now calls) msg o userId now hinv.2.2
    h5 hact hokc hm hu hown

/-- Start body used to witness C1. -/
def c1Body : StartBody :=
  { journalSessionId := 4, userId := 3,
    selectedThought := "Everything always goes wrong for me",
    distortionType := "Overgeneralization", reframingMethod := "evidenceCheck" }

/-- Freshly created session used to witness C1. -/
def c1Start : ReframingSession := createReframingSession c1Body 12 0

/-- Model reply that never signals completion, used to witness C1. -/
def c1Reply : ModelReply :=
  { message := "And what would you tell a friend?", isComplete := false,
    finalReframedThought := none, nextSuggestion := none }

/-- Five successful non-screened exchanges, used to witness C1. -/
def c1Calls : List (String × ModelOutcome) :=
  List.replicate 5 ("that could be true", .success c1Reply)

set_option maxRecDepth 8192 in
theorem c1_turn_ceiling_forced_completion_witness :
    effTurnCount (runChat c1Start 3 true 1 c1Calls) ≤ 6 ∧
    (∀ (msg : String) (o : ModelOutcome),
      okCall (msg, o) = true → msg ≠ "" → (3 : Nat) ≠ 0 →
      (runChat c1Start 3 true 1 c1Calls).userId = 3 →
      effTurnCount (runChat c1Start 3 true 1 c1Calls) = 5 →
      (runChat c1Start 3 true 1 c1Calls).isCompleted = false →
      ∃ p : ChatPayload,
        (chatStep (runChat c1Start 3 true 1 c1Calls) msg 3 true o 1).1 = .ok p ∧
        p.isComplete = true ∧ p.reachedTurnLimit = true ∧
        optTruthy p.finalReframedThought = true ∧ p.turnCount = 6 ∧
        (chatStep (runChat c1Start 3 true 1 c1Calls) msg 3 true o 1).2.isCompleted = true) :=
  c1_turn_ceiling_forced_completion c1Body 12 0 c1Start c1Calls 3 true 1 rfl (by decide)

theorem c8_static_fields_preserved_witness :
    (chatStep c4Session "x" 5 true .failure 0).2.reframingMethod = c4Session.reframingMethod ∧
    (chatStep c4Session "x" 5 true .failure 0).2.selectedThought = c4Session.selectedThought ∧
    (chatStep c4Session "x" 5 true .failure 0).2.id = c4Session.id ∧
    (chatStep c4Session "x" 5 true .failure 0).2.journalSessionId = c4Session.journalSessionId ∧
    (chatStep c4Session "x" 5 true .failure 0).2.userId = c4Session.userId ∧
    (chatStep c4Session "x" 5 true .failure 0).2.distortionType = c4Session.distortionType ∧
    (chatStep c4Session "x" 5 true .failure 0).2.maxTurns = c4Session.maxTurns ∧
    (chatStep c4Session "x" 5 true .failure 0).2.createdAt = c4Session.createdAt :=
  c8_static_fields_preserved c4Session "x" 5 true .failure 0

set_option maxRecDepth 8192 in
theorem c10_screening_is_substring_matching_witness :
    (isCrisisText "They said I should just end my life differently" = true ↔
      ∃ p ∈ crisisTriggerPhrases,
        ∃ u v, u ++ p.toList ++ v =
          "They said I should just end my life differently".toList.map Char.toLower) ∧
    (shouldBlockPromptInjection "They said I should just end my life differently" = true ↔
      ∃ p ∈ jailbreakPhrases,
        ∃ u v, u ++ p.toList ++ v =
          "They said I should just end my life differently".toList.map Char.toLower) :=
  c10_screening_is_substring_matching "They said I should just end my life differently"
